/-
Verification of the session-orchestrator core of the strawberry-terminal
plugin repository.

The embedding below shallowly models two source files:

* `src/plugins/strawberry-terminal/servers/trycua/dist/computer-use.js`
  (the `VMManager` class: registry of VM sessions, spawn / executeAction /
  executeTask / getScreenshot / stop / heartbeats), together with the
  shared types of `servers/trycua/src/types.ts`; and
* `src/plugins/windows-mcp/bin/tunnel-manager.js`
  (module-level tunnel state: `createTunnel`, `startIAPTunnel`,
  `startSSHTunnel`, `stopTunnel`).

Modelling conventions:

* JavaScript `Map` objects become insertion-ordered association lists.
* Every network / IPC call (fetch, WebSocket probe, SDK interface call,
  process spawn) is resolved by an explicit outcome supplied as an
  argument (an "oracle"), so each operation is a pure function of the
  state and the oracle.  A JS promise rejection is `Except.error`.
* Wall-clock timestamps (`new Date()`, `Date.now()`) are abstracted to a
  `Nat` tick supplied per operation; console logging is dropped (it has
  no effect on state or results).
* Operations additionally return a small event trace where a claim is
  about the order of internal transitions (spawn) or about which
  teardown actions ran (stop).
-/
import Mathlib

namespace StrawberryTerminal

/-! ## Data model (`servers/trycua/src/types.ts`) -/

/-- `VMStatus` from types.ts:
`'spawning' | 'setting_up' | 'ready' | 'working' | 'idle' | 'error' | 'stopped'`. -/
inductive VMStatus where
  | spawning
  | setting_up
  | ready
  | working
  | idle
  | error
  | stopped
deriving DecidableEq, Repr

/-- `OSType` from types.ts: `'macos' | 'linux' | 'windows'`. -/
inductive OSType where
  | macos
  | linux
  | windows
deriving DecidableEq, Repr

/-- `VMSize` from types.ts: `'small' | 'medium' | 'large'`. -/
inductive VMSize where
  | small
  | medium
  | large
deriving DecidableEq, Repr

/-- `VMResources` from types.ts. -/
structure VMResources where
  size : VMSize
  ram : String
  ramMB : Nat
  cpu : Nat
  storage : String
deriving DecidableEq, Repr

/-- `VM_SIZE_SPECS` from types.ts. -/
def VM_SIZE_SPECS : VMSize → VMResources
  | .small => { size := .small, ram := "4GB", ramMB := 4096, cpu := 1, storage := "20GB" }
  | .medium => { size := .medium, ram := "8GB", ramMB := 8192, cpu := 2, storage := "40GB" }
  | .large => { size := .large, ram := "32GB", ramMB := 32768, cpu := 8, storage := "80GB" }

/-- The `VM` record of types.ts (the session record owned by the registry).
Optional JS fields are `Option`; `Date` timestamps are `Nat` ticks. -/
structure VM where
  id : String
  name : String
  osType : OSType
  status : VMStatus
  tags : List String
  size : VMSize
  resources : VMResources
  region : Option String
  createdAt : Nat
  lastActivity : Option Nat
  currentTask : Option String
  screenshotB64 : Option String
  reasoning : Option String
  lastAction : Option String
deriving DecidableEq, Repr

/-- `Screenshot` from types.ts. -/
structure Screenshot where
  vmId : String
  imageB64 : String
  timestamp : Nat
  reasoning : Option String
  lastAction : Option String
deriving DecidableEq, Repr

/-- `TaskResult` from types.ts. -/
structure TaskResult where
  vmId : String
  task : String
  success : Bool
  output : String
  screenshots : List Screenshot
  duration : Nat
  error : Option String
deriving DecidableEq, Repr

/-- `ComputerAction` kinds from types.ts
(`'click' | 'type' | 'scroll' | 'screenshot' | 'key' | 'move'`). -/
inductive ActionType where
  | click
  | type
  | scroll
  | screenshot
  | key
  | move
deriving DecidableEq, Repr

/-- Mouse button of a click action. -/
inductive MouseButton where
  | left
  | right
  | middle
deriving DecidableEq, Repr

/-- Scroll direction. -/
inductive ScrollDirection where
  | up
  | down
deriving DecidableEq, Repr

/-- `ComputerAction` from types.ts; all payload fields are optional in the
TS interface. -/
structure ComputerAction where
  type : ActionType
  x : Option Nat
  y : Option Nat
  text : Option String
  button : Option MouseButton
  key : Option String
  direction : Option ScrollDirection
  amount : Option Nat
deriving DecidableEq, Repr

/-! ## VMManager state (`dist/computer-use.js`, class `VMManager`) -/

/-- The SDK `Computer` object as far as VMManager observes it: after a
successful `computer.run()` its `interface` property is available. -/
structure Computer where
  ifaceReady : Bool
deriving DecidableEq, Repr

/-- One value of the `vms` map: `{ computer, meta, cloudName? }`. -/
structure VMEntry where
  computer : Option Computer
  meta : VM
  cloudName : Option String
deriving DecidableEq, Repr

/-- The mutable fields of the `VMManager` instance:
`vms` (a JS `Map`, modelled as an insertion-ordered association list),
`heartbeatTimers` (we record only which ids have a live timer),
`maxVms`, `apiKey`, `enableMasterRegistration`. -/
structure VMManager where
  vms : List (String × VMEntry)
  heartbeatTimers : List String
  maxVms : Nat
  apiKey : String
  enableMasterRegistration : Bool
deriving DecidableEq, Repr

namespace VMManager

/-- `this.vms.get(id)`. -/
def getEntry (m : VMManager) (vmId : String) : Option VMEntry :=
  (m.vms.find? (fun p => p.1 = vmId)).map (·.2)

/-- `this.vms.set(id, e)`: JS `Map.set` updates an existing key in place
(keeping insertion order) and appends a fresh key. -/
def setEntry (m : VMManager) (vmId : String) (e : VMEntry) : VMManager :=
  if (m.vms.find? (fun p => p.1 = vmId)).isSome then
    { m with vms := m.vms.map (fun p => if p.1 = vmId then (vmId, e) else p) }
  else
    { m with vms := m.vms ++ [(vmId, e)] }

/-- `this.vms.delete(id)`. -/
def deleteEntry (m : VMManager) (vmId : String) : VMManager :=
  { m with vms := m.vms.filter (fun p => ¬ p.1 = vmId) }

/-- Update the `meta` record of an entry in place (JS mutates the shared
`vm` object that the map entry references). -/
def updateMeta (m : VMManager) (vmId : String) (f : VM → VM) : VMManager :=
  { m with vms := m.vms.map (fun p => if p.1 = vmId then (p.1, { p.2 with meta := f p.2.meta }) else p) }

/-- `get(vmId)` of VMManager: `this.vms.get(vmId)?.meta`. -/
def get (m : VMManager) (vmId : String) : Option VM :=
  (m.getEntry vmId).map (·.meta)

/-- `getAll()`: `Array.from(this.vms.values()).map(e => e.meta)`. -/
def getAll (m : VMManager) : List VM :=
  m.vms.map (fun p => p.2.meta)

end VMManager

/-! ## Error taxonomy

Each constructor corresponds to one `throw new Error(...)` site of the
source (the carried strings are the dynamic parts of the JS messages). -/

/-- Errors thrown by VMManager operations. -/
inductive VMError where
  /-- spawn: `'CUA_API_KEY not set. Get your API key at https://cua.ai'`. -/
  | noApiKey
  /-- spawn: `` `Maximum VM limit (${this.maxVms}) reached` `` (the spec's `ResourceExhausted`). -/
  | resourceExhausted (maxVms : Nat)
  /-- `` `VM ${vmId} not found` `` (executeAction / executeTask / getScreenshot / bootstrap). -/
  | notFound (vmId : String)
  /-- `` `VM ${vmId} interface not ready` `` (executeAction). -/
  | interfaceNotReady (vmId : String)
  /-- executeTask: `` `VM ${vmId} is in ${vm.status} state` `` (the spec's `InvalidState`). -/
  | invalidState (vmId : String) (s : VMStatus)
  /-- provisionVM: `` `Failed to provision VM: ${status} - ${errorText}` ``, or a
  rejected provisioning fetch. -/
  | provisionFailed (msg : String)
  /-- waitForVMReady: `` `VM not ready after ${timeoutSeconds} seconds` ``. -/
  | notReadyTimeout (timeoutSeconds : Nat)
  /-- a rejected `computer.run()` / interface call (re-thrown by the caller). -/
  | transportError (msg : String)
  /-- a rejected `fetch` inside `deleteVM` (no try/catch around it in the source). -/
  | deleteNetworkError (msg : String)
deriving DecidableEq, Repr

/-! ## JS helpers -/

/-- JS `a || b` for an optional string: `undefined` and `''` are falsy. -/
def jsOr (a : Option String) (b : String) : String :=
  match a with
  | none => b
  | some s => if s = "" then b else s

/-- JS truthiness of an optional string (`if (action.text)`). -/
def strTruthy : Option String → Bool
  | none => false
  | some s => ¬ s = ""

/-- `!computer || !computer.interface` negated: the SDK handle exists and its
interface is attached. -/
def ifaceUp : Option Computer → Bool
  | none => false
  | some c => c.ifaceReady

/-- `resizeScreenshot(buffer)`: sharp-based downscale to ≤ 1200 px wide.  The
pixel transform itself is outside the embedding; `attempt` is the outcome of
the sharp pipeline on this buffer.  On any failure the source catches, logs
and returns the original buffer, so this function cannot fail. -/
def resizeScreenshot (buffer : String) (attempt : Except String String) : String :=
  match attempt with
  | .ok resized => resized
  | .error _ => buffer

/-! ## Heartbeat Reporter (`sendHeartbeat` / `startHeartbeat` / `stopHeartbeat`) -/

/-- The JSON body of the heartbeat POST:
`{ id, status: vm.status === 'working' ? 'busy' : 'online', currentTask }`. -/
structure HBPush where
  id : String
  status : String
  currentTask : Option String
deriving DecidableEq, Repr

/-- `sendHeartbeat(vmId)`: best-effort POST to the fleet registrar.
Returns the attempted payload (if any) for observability; `pushResult` is the
outcome of the fetch.  A rejected fetch is caught (`console.error` only). -/
def VMManager.sendHeartbeat (m : VMManager) (vmId : String)
    (pushResult : Except String Unit) : Option HBPush × VMManager :=
  if ¬ m.enableMasterRegistration then (none, m)
  else
    match m.get vmId with
    | none => (none, m)
    | some vm =>
      let payload : HBPush :=
        { id := vm.id
          status := if vm.status = .working then "busy" else "online"
          currentTask := vm.currentTask }
      match pushResult with
      | .ok _ => (some payload, m)
      | .error _ => (some payload, m)

/-- `stopHeartbeat(vmId)`: clear the timer for `vmId` if present. -/
def VMManager.stopHeartbeat (m : VMManager) (vmId : String) : VMManager :=
  { m with heartbeatTimers := m.heartbeatTimers.filter (fun i => ¬ i = vmId) }

/-- `startHeartbeat(vmId)`: clear any existing timer, send one immediate
heartbeat (fire-and-forget), register the periodic timer. -/
def VMManager.startHeartbeat (m : VMManager) (vmId : String)
    (pushResult : Except String Unit) : VMManager :=
  if ¬ m.enableMasterRegistration then m
  else
    let m1 := { m with heartbeatTimers := m.heartbeatTimers.filter (fun i => ¬ i = vmId) }
    let m2 := (m1.sendHeartbeat vmId pushResult).2
    { m2 with heartbeatTimers := m2.heartbeatTimers ++ [vmId] }

/-- `registerWithMaster(vm)`: POSTs the VM's capabilities to the fleet
registrar.  Every path (disabled, non-2xx response, rejected fetch, success)
only logs or emits an event; the manager state is untouched. -/
def registerWithMaster (m : VMManager) (fetchRes : Except String Nat) : VMManager :=
  if ¬ m.enableMasterRegistration then m
  else
    match fetchRes with
    | .ok _status => m
    | .error _ => m

/-! ## `getScreenshot` -/

/-- Oracle for one `getScreenshot` call. -/
structure ShotEnv where
  /-- outcome of `computer.interface.screenshot()`. -/
  shot : Except String String
  /-- outcome of the sharp resize pipeline. -/
  resize : Except String String
  /-- `new Date()`. -/
  now : Nat

/-- `getScreenshot(vmId)`: fresh frame when possible, otherwise the cached
`vm.screenshotB64 || ''` — both when the interface is not attached and when
the remote screenshot call throws (the catch returns the cache). -/
def VMManager.getScreenshot (m : VMManager) (vmId : String) (env : ShotEnv) :
    Except VMError Screenshot × VMManager :=
  match m.getEntry vmId with
  | none => (.error (.notFound vmId), m)
  | some entry =>
    let vm := entry.meta
    if ¬ ifaceUp entry.computer then
      (.ok { vmId, imageB64 := jsOr vm.screenshotB64 "", timestamp := env.now,
             reasoning := vm.reasoning,
             lastAction := some (jsOr vm.lastAction "Interface not ready") }, m)
    else
      match env.shot with
      | .ok raw =>
        let imageB64 := resizeScreenshot raw env.resize
        let frame : Screenshot :=
          { vmId, imageB64, timestamp := env.now,
            reasoning := vm.reasoning, lastAction := vm.lastAction }
        (.ok frame, m.updateMeta vmId (fun v => { v with screenshotB64 := some imageB64 }))
      | .error e =>
        (.ok { vmId, imageB64 := jsOr vm.screenshotB64 "", timestamp := env.now,
               reasoning := vm.reasoning,
               lastAction := some (jsOr vm.lastAction ("Error: " ++ e)) }, m)

/-! ## `executeAction` -/

/-- Whether the `switch (action.type)` of `executeAction` performs an
interface input call for this action (JS truthiness / `!== undefined`
conditions transcribed). -/
def needsInputCall (a : ComputerAction) : Bool :=
  match a.type with
  | .click => true
  | .type => strTruthy a.text
  | .key => strTruthy a.key
  | .scroll => true
  | .move => a.x.isSome && a.y.isSome
  | .screenshot => false

/-- `${x}`-style printing of a possibly-undefined number. -/
def optNatStr : Option Nat → String
  | some n => toString n
  | none => "undefined"

/-- Printing of a possibly-undefined mouse button (`action.button || 'left'`). -/
def buttonStr : Option MouseButton → String
  | some .left => "left"
  | some .right => "right"
  | some .middle => "middle"
  | none => "left"

/-- Printing of a possibly-undefined scroll direction. -/
def dirStr : Option ScrollDirection → String
  | some .up => "up"
  | some .down => "down"
  | none => "undefined"

/-- `VMManager.describeAction(action)` (logging string). -/
def describeAction (a : ComputerAction) : String :=
  match a.type with
  | .click => "click(" ++ optNatStr a.x ++ ", " ++ optNatStr a.y ++ ") [" ++ buttonStr a.button ++ "]"
  | .type =>
    let body := match a.text with
      | some t => t.take 20 ++ (if t.length > 20 then "..." else "")
      | none => "undefined"
    "type(\"" ++ body ++ "\")"
  | .scroll => "scroll(" ++ dirStr a.direction ++ ", " ++ optNatStr a.amount ++ ")"
  | .key =>
    "key(" ++ (match a.key with | some k => k | none => "undefined") ++ ")"
  | .move => "move(" ++ optNatStr a.x ++ ", " ++ optNatStr a.y ++ ")"
  | .screenshot => "screenshot()"

/-- Oracle for one `executeAction` call. -/
structure ActionEnv where
  /-- outcome of the single interface input call of the `switch`, if one happens. -/
  inputRes : Except String Unit
  /-- outcome of the post-action `iface.screenshot()`. -/
  shot : Except String String
  /-- outcome of the sharp resize pipeline. -/
  resize : Except String String
  /-- `new Date()`. -/
  now : Nat

/-- `executeAction(vmId, action)`.  Note the source checks only that the entry
exists and that `computer.interface` is attached — it never inspects
`vm.status`.  `vm.lastActivity` is set before the try block; on any transport
failure the catch sets `vm.status = 'error'` and rethrows. -/
def VMManager.executeAction (m : VMManager) (vmId : String) (a : ComputerAction)
    (env : ActionEnv) : Except VMError Screenshot × VMManager :=
  match m.getEntry vmId with
  | none => (.error (.notFound vmId), m)
  | some entry =>
    if ¬ ifaceUp entry.computer then (.error (.interfaceNotReady vmId), m)
    else
      let m1 := m.updateMeta vmId (fun v => { v with lastActivity := some env.now })
      let inputOutcome : Except String Unit :=
        if needsInputCall a then env.inputRes else .ok ()
      match inputOutcome with
      | .error e =>
        (.error (.transportError e), m1.updateMeta vmId (fun v => { v with status := .error }))
      | .ok _ =>
        match env.shot with
        | .error e =>
          (.error (.transportError e), m1.updateMeta vmId (fun v => { v with status := .error }))
        | .ok raw =>
          let imageB64 := resizeScreenshot raw env.resize
          let frame : Screenshot :=
            { vmId, imageB64, timestamp := env.now,
              reasoning := none, lastAction := some (describeAction a) }
          let m2 := m1.updateMeta vmId (fun v =>
            { v with screenshotB64 := some imageB64, lastAction := some (describeAction a) })
          (.ok frame, m2)

/-! ## `parseBrowserTask`

The source matches the task against two JS regexes (both with the `i` flag)
and a list of `includes` phrases.  The matcher below implements exactly the
constructs those two regexes use, with JS backtracking semantics: a match
attempt at a position yields the list of possible remainders in the engine's
priority order (leftmost position first, alternation left-to-right, greedy
quantifiers longest-first, lazy quantifiers shortest-first); the head of the
list is what JS commits to.  Character classes are the ASCII ones the
patterns use (`\s` is modelled by the ASCII whitespace characters). -/

namespace Rx

/-- Case-insensitive literal: strip `pat` (given in lowercase) from the
input, comparing lowercased input characters. -/
def stripCI : List Char → List Char → Option (List Char)
  | [], s => some s
  | _ :: _, [] => none
  | p :: ps, c :: cs => if c.toLower = p then stripCI ps cs else none

/-- A matcher: all possible remainders after consuming a match of the
sub-pattern, in backtracking priority order. -/
abbrev M := List Char → List (List Char)

/-- A case-insensitive literal. -/
def lit (pat : String) : M := fun s =>
  match stripCI pat.toList s with
  | some r => [r]
  | none => []

/-- A single character of a class. -/
def cls (p : Char → Bool) : M := fun s =>
  match s with
  | [] => []
  | c :: cs => if p c then [cs] else []

/-- Greedy `p*` over a character class: remainders longest-match-first. -/
def starG (p : Char → Bool) : List Char → List (List Char)
  | [] => [[]]
  | c :: cs => if p c then starG p cs ++ [c :: cs] else [c :: cs]

/-- Greedy `p+` over a character class. -/
def plusG (p : Char → Bool) : M := fun s =>
  match s with
  | [] => []
  | c :: cs => if p c then starG p cs else []

/-- Lazy `p+?` over a character class: remainders shortest-match-first. -/
def plusL (p : Char → Bool) : List Char → List (List Char)
  | [] => []
  | c :: cs => if p c then cs :: plusL p cs else []

/-- Sequencing; inherits both priorities. -/
def seq (a b : M) : M := fun s => (a s).flatMap b

/-- Alternation, left alternative preferred. -/
def alt (a b : M) : M := fun s => a s ++ b s

/-- Greedy `r?`: matching preferred over skipping. -/
def opt (a : M) : M := fun s => a s ++ [s]

/-- Greedy `r+` for a compound sub-pattern `r`, by fuel on the input length
(each of our repeated sub-patterns consumes at least one character; the
no-progress guard only serves termination). -/
def plusMG (r : M) : Nat → M
  | 0, _ => []
  | fuel + 1, s =>
    (r s).flatMap (fun rem =>
      if rem.length < s.length then plusMG r fuel rem ++ [rem] else [rem])

/-- Greedy `r+` for a compound sub-pattern. -/
def plusM (r : M) : M := fun s => plusMG r s.length s

/-- The prefix of `s` consumed to reach remainder `r` (remainders are always
suffixes of `s`). -/
def consumed (s r : List Char) : List Char := s.take (s.length - r.length)

/-- Pair each remainder of a sub-pattern with the text it consumed
(for capture groups). -/
def withCap (m : M) (s : List Char) : List (List Char × List Char) :=
  (m s).map (fun r => (consumed s r, r))

/-- Try `f` at every start position, leftmost first (JS unanchored search). -/
def scanA (f : List Char → Option α) : List Char → Option α
  | [] => f []
  | c :: cs =>
    match f (c :: cs) with
    | some v => some v
    | none => scanA f cs

/-- ASCII `\s`. -/
def isSp (c : Char) : Bool := c = ' ' || c = '\t' || c = '\r' || c = '\n'

/-- `[^\s]`. -/
def nonSp (c : Char) : Bool := ¬ isSp c

/-- `[a-zA-Z0-9]`. -/
def alnum (c : Char) : Bool := c.isAlpha || c.isDigit

/-- `[-a-zA-Z0-9]`. -/
def dashAlnum (c : Char) : Bool := c = '-' || alnum c

/-- `["']`. -/
def isQuote (c : Char) : Bool := c = '"' || c = '\''

/-- `[^"']`. -/
def notQuote (c : Char) : Bool := ¬ isQuote c

end Rx

open Rx in
/-- `(?:go to|navigate to|open|visit|browse to)` of the navigation regex. -/
def navPrefixAlt : Rx.M :=
  alt (lit "go to") (alt (lit "navigate to") (alt (lit "open") (alt (lit "visit") (lit "browse to"))))

open Rx in
/-- Group 1, first alternative: `https?:\/\/[^\s]+`. -/
def urlHttpAlt : Rx.M :=
  seq (lit "http") (seq (opt (lit "s")) (seq (lit "://") (plusG nonSp)))

open Rx in
/-- Group 1, second alternative:
`[a-zA-Z0-9][-a-zA-Z0-9]*(?:\.[a-zA-Z]{2,})+[^\s]*`. -/
def urlDomainAlt : Rx.M :=
  seq (cls alnum)
    (seq (starG dashAlnum)
      (seq (plusM (seq (lit ".") (seq (cls Char.isAlpha) (plusG Char.isAlpha))))
        (starG nonSp)))

open Rx in
/-- One attempt of the whole navigation regex at the start of `s`; returns
the group-1 capture of the committed match.  Nothing follows the group, so
the first remainder the group yields is the committed one. -/
def urlAtPos (s : List Char) : Option (List Char) :=
  ((seq navPrefixAlt (plusG isSp) s).flatMap
      (fun rem => withCap (alt urlHttpAlt urlDomainAlt) rem)).head? |>.map (·.1)

open Rx in
/-- The JS `task.match(urlRegex)` group-1 result:
`/(?:go to|navigate to|open|visit|browse to)\s+(https?:\/\/[^\s]+|[a-zA-Z0-9][-a-zA-Z0-9]*(?:\.[a-zA-Z]{2,})+[^\s]*)/i`. -/
def urlMatch (task : String) : Option String :=
  (scanA urlAtPos task.toList).map (fun l => String.mk l)

open Rx in
/-- `(?:search|google|look up|find)` of the search regex. -/
def searchKwAlt : Rx.M :=
  alt (lit "search") (alt (lit "google") (alt (lit "look up") (lit "find")))

open Rx in
/-- `(?:\s+on\s+(?:google|chrome|the\s+web))?` of the search regex. -/
def searchOnOpt : Rx.M :=
  opt (seq (plusG isSp)
    (seq (lit "on")
      (seq (plusG isSp)
        (alt (lit "google")
          (alt (lit "chrome") (seq (lit "the") (seq (plusG isSp) (lit "web"))))))))

open Rx in
/-- One attempt of the whole search regex at the start of `s`; the regex is
`$`-anchored, so a candidate only succeeds if its tail consumes the rest of
the input.  Returns the group-1 capture of the committed match. -/
def searchAtPos (s : List Char) : Option (List Char) :=
  (((seq searchKwAlt
        (seq (plusG isSp) (seq (opt (seq (lit "for") (plusG isSp))) (opt (cls isQuote))))) s).flatMap
      (fun rem1 =>
        (withCap (plusL notQuote) rem1).flatMap
          (fun cr =>
            ((seq (opt (cls isQuote)) searchOnOpt) cr.2).flatMap
              (fun rem3 => if rem3 = [] then [cr.1] else [])))).head?

open Rx in
/-- The JS `task.match(searchRegex)` group-1 result:
`/(?:search|google|look up|find)\s+(?:for\s+)?["']?([^"']+?)["']?(?:\s+on\s+(?:google|chrome|the\s+web))?$/i`. -/
def searchMatch (task : String) : Option String :=
  (scanA searchAtPos task.toList).map (fun l => String.mk l)

/-- JS `String.prototype.trim()` (ASCII whitespace). -/
def trimJS (s : String) : String :=
  String.mk (((s.toList.dropWhile Rx.isSp).reverse.dropWhile Rx.isSp).reverse)

/-- `startsWith` on character lists. -/
def startsWithL : List Char → List Char → Bool
  | _, [] => true
  | [], _ :: _ => false
  | c :: cs, n :: ns => c = n && startsWithL cs ns

/-- JS `String.prototype.includes` on character lists. -/
def containsSub (needle : List Char) : List Char → Bool
  | [] => startsWithL [] needle
  | c :: cs => startsWithL (c :: cs) needle || containsSub needle cs

/-- `lowerTask.includes(phrase)`. -/
def includesPhrase (lowerTask : String) (phrase : String) : Bool :=
  containsSub phrase.toList lowerTask.toList

/-- JS `String.prototype.toLowerCase()` (character-wise). -/
def toLowerJS (s : String) : String := String.mk (s.toList.map Char.toLower)

/-- JS `String.prototype.startsWith(pre)` (character-wise). -/
def startsWithJS (s pre : String) : Bool := startsWithL s.toList pre.toList

/-- The result of `parseBrowserTask`:
`{action:'navigate',url} | {action:'search',query} | {action:'open_browser'} | {action:'none'}`. -/
inductive ParsedTask where
  | navigate (url : String)
  | search (query : String)
  | open_browser
  | none
deriving DecidableEq, Repr

/-- `parseBrowserTask(task)`: url navigation first, then search, then the
browser-opening phrase list, else `none`. -/
def parseBrowserTask (task : String) : ParsedTask :=
  let lowerTask := toLowerJS task
  match urlMatch task with
  | some url =>
    let url := if startsWithJS url "http" then url else "https://" ++ url
    .navigate url
  | Option.none =>
    match searchMatch task with
    | some q => .search (trimJS q)
    | Option.none =>
      if includesPhrase lowerTask "open chrome" || includesPhrase lowerTask "launch chrome" ||
         includesPhrase lowerTask "start chrome" || includesPhrase lowerTask "open browser" ||
         includesPhrase lowerTask "open chromium" || includesPhrase lowerTask "open firefox" ||
         includesPhrase lowerTask "launch firefox" || includesPhrase lowerTask "start firefox" then
        .open_browser
      else
        .none

/-! ## `executeTask`

The body of the `try` block of `executeTask` is straight-line code whose only
fallible operations are the SDK interface calls (`pressKey`, `typeText`,
`iface.screenshot`); `this.delay(...)` cannot fail and `actions.push` /
`screenshots.push` are pure accumulation.  We represent that straight-line
code as the list of its observable steps (`taskSteps`) and interpret it with
`runSteps`; a failing call aborts the rest, carrying what was accumulated so
far (exactly the JS exception into the surrounding `catch`). -/

/-- One step of the `try` block of `executeTask`. -/
inductive TStep where
  /-- a fallible interface input call (`pressKey` / `typeText`); the label
  records which source call it is. -/
  | call (label : String)
  /-- `actions.push(a)`. -/
  | note (a : String)
  /-- `iface.screenshot()` + resize + `screenshots.push({reasoning, lastAction})`. -/
  | shot (reasoning : String) (lastAction : String)
deriving DecidableEq, Repr

/-- The browser-opening block (runs for `open_browser`, `navigate` and
`search`), per OS. -/
def openBrowserSteps : OSType → List TStep
  | .linux =>
    [.call "pressKey ctrl+alt+t",
     .call "typeText firefox || chromium-browser || google-chrome &",
     .call "pressKey Return",
     .note "Opened terminal and launched Firefox",
     .call "pressKey ctrl+d"]
  | .windows =>
    [.call "pressKey super+r",
     .call "typeText firefox",
     .call "pressKey Return",
     .note "Launched Firefox via Run dialog"]
  | .macos =>
    [.call "pressKey cmd+space",
     .call "typeText Firefox",
     .call "pressKey Return",
     .note "Launched Firefox via Spotlight"]

/-- The navigation block. -/
def navigateSteps (url : String) : List TStep :=
  [.call "pressKey ctrl+l",
   .call ("typeText " ++ url),
   .call "pressKey Return",
   .note ("Navigated to " ++ url),
   .shot ("Navigated to " ++ url) ("Loaded " ++ url)]

/-- The search block. -/
def searchSteps (q : String) : List TStep :=
  [.call "pressKey ctrl+l",
   .call ("typeText " ++ q),
   .call "pressKey Return",
   .note ("Searched for \"" ++ q ++ "\""),
   .shot ("Searched for \"" ++ q ++ "\"") ("Search results for \"" ++ q ++ "\"")]

/-- The full step list of the `try` block: initial screenshot, then (unless
the task parsed to `none`) the browser-opening block with its screenshot,
then the navigate / search block when applicable. -/
def taskSteps (task : String) (osType : OSType) : List TStep :=
  let firefoxShot : TStep := .shot "Firefox launched" "Firefox opened"
  TStep.shot ("Task received: " ++ task) "Initial screenshot" ::
    match parseBrowserTask task with
    | .none => []
    | .open_browser => openBrowserSteps osType ++ [firefoxShot]
    | .navigate url => openBrowserSteps osType ++ [firefoxShot] ++ navigateSteps url
    | .search q => openBrowserSteps osType ++ [firefoxShot] ++ searchSteps q

/-- Oracle for one `executeTask` call. -/
structure TaskEnv where
  /-- outcome (and, for screenshots, payload) of the n-th interface call of
  the try block. -/
  io : Nat → Except String String
  /-- outcome of the sharp resize pipeline for the screenshot taken at call
  index n. -/
  resize : Nat → Except String String

/-- Accumulator of the `try` block: next call index, `screenshots`, `actions`,
and the running `imageB64` variable. -/
structure RunAcc where
  idx : Nat
  screenshots : List Screenshot
  actions : List String
  lastImage : Option String
deriving DecidableEq, Repr

/-- Interpret the steps; a failing call throws into the `catch`, carrying the
accumulator as it stood (`screenshots` / `actions` are JS arrays the catch
still sees). -/
def runSteps (vmId : String) (env : TaskEnv) (now : Nat) :
    List TStep → RunAcc → Except (String × RunAcc) RunAcc
  | [], acc => .ok acc
  | .call _ :: rest, acc =>
    match env.io acc.idx with
    | .ok _ => runSteps vmId env now rest { acc with idx := acc.idx + 1 }
    | .error e => .error (e, { acc with idx := acc.idx + 1 })
  | .note a :: rest, acc =>
    runSteps vmId env now rest { acc with actions := acc.actions ++ [a] }
  | .shot r la :: rest, acc =>
    match env.io acc.idx with
    | .ok raw =>
      let img := resizeScreenshot raw (env.resize acc.idx)
      runSteps vmId env now rest
        { acc with
          idx := acc.idx + 1,
          screenshots := acc.screenshots ++
            [{ vmId, imageB64 := img, timestamp := now, reasoning := some r, lastAction := some la }],
          lastImage := some img }
    | .error e => .error (e, { acc with idx := acc.idx + 1 })

/-- `executeTask(vmId, task)`.  Guards: missing entry throws NotFound; a
`stopped` or `error` status throws InvalidState.  Then
`status='working'`, `currentTask`, `lastActivity` are set and the try block
runs; on success `status='idle'`, `currentTask` cleared; on any step failure
the catch sets `status='error'` and returns a failed TaskResult that keeps
the screenshots captured so far (`currentTask` is NOT cleared by the catch).
`duration` stands for `Date.now() - startTime`. -/
def VMManager.executeTask (m : VMManager) (vmId : String) (task : String)
    (env : TaskEnv) (now duration : Nat) : Except VMError TaskResult × VMManager :=
  match m.getEntry vmId with
  | some entry =>
    let vm := entry.meta
    if vm.status = .stopped ∨ vm.status = .error then
      (.error (.invalidState vmId vm.status), m)
    else
      let m1 := m.updateMeta vmId (fun v =>
        { v with status := .working, currentTask := some task, lastActivity := some now })
      if ¬ ifaceUp entry.computer then
        -- `const iface = computer.interface` on a null / unconnected computer
        -- throws inside the try block before any call: caught with no frames.
        (.ok { vmId, task, success := false, output := "", screenshots := [],
               duration, error := some "TypeError: computer interface is not available" },
         m1.updateMeta vmId (fun v => { v with status := .error }))
      else
        match runSteps vmId env now (taskSteps task vm.osType) ⟨0, [], [], none⟩ with
        | .ok acc =>
          let lastAct := acc.actions.getLast?.getD "Task completed"
          let m2 := m1.updateMeta vmId (fun v =>
            { v with screenshotB64 := acc.lastImage, status := .idle,
                     currentTask := none, lastAction := some lastAct })
          let output :=
            if acc.actions.length > 0 then
              "Task completed. Actions performed: " ++ String.intercalate ", " acc.actions
            else
              "Task \"" ++ task ++ "\" ready for execution. Screenshot captured. " ++
                "Use computer_action to perform specific actions."
          (.ok { vmId, task, success := true, output, screenshots := acc.screenshots,
                 duration, error := none }, m2)
        | .error (e, acc) =>
          (.ok { vmId, task, success := false, output := "",
                 screenshots := acc.screenshots, duration, error := some e },
           m1.updateMeta vmId (fun v => { v with status := .error }))
  | Option.none => (.error (.notFound vmId), m)

/-! ## `waitForVMReady` and `spawn` -/

/-- Loop body of `waitForVMReady`: at most `fuel` further probe attempts,
`k` the index of the next one. -/
def waitForVMReadyAux (probe : Nat → Bool) (timeoutSeconds : Nat) :
    Nat → Nat → Except VMError Nat
  | 0, _ => .error (.notReadyTimeout timeoutSeconds)
  | fuel + 1, k => if probe k then .ok k else waitForVMReadyAux probe timeoutSeconds fuel (k + 1)

/-- `waitForVMReady(host, timeoutSeconds)`: polls `testWebSocketConnection`
every 5 s until success or the deadline.  Real time is outside the embedding:
the loop is modelled as at most `timeoutSeconds / 5` probe attempts, `probe k`
being the outcome of attempt `k`; the successful attempt index is returned
(the source returns after logging the elapsed seconds). -/
def waitForVMReady (probe : Nat → Bool) (timeoutSeconds : Nat) : Except VMError Nat :=
  waitForVMReadyAux probe timeoutSeconds (timeoutSeconds / 5) 0

/-- `VMConfig` from types.ts (the fields `spawn` reads). -/
structure VMConfig where
  name : String
  osType : Option OSType
  region : Option String
  size : Option VMSize
  tags : Option (List String)
deriving DecidableEq, Repr

/-- The `{name, host}` returned by the provisioning API. -/
structure Provision where
  name : String
  host : String
deriving DecidableEq, Repr

/-- Oracle for one `spawn` call. -/
structure SpawnEnv where
  /-- `uuidv4()`. -/
  newId : String
  /-- outcome of `provisionVM` (a rejected fetch or non-ok response throws). -/
  provision : Except String Provision
  /-- outcomes of the `waitForVMReady` probe attempts. -/
  probe : Nat → Bool
  /-- outcome of `computer.run()`. -/
  connect : Except String Unit
  /-- outcome of the `registerWithMaster` fetch. -/
  registerRes : Except String Nat
  /-- outcome of the immediate heartbeat sent by `startHeartbeat`. -/
  hbPush : Except String Unit
  /-- `new Date()`. -/
  now : Nat

/-- Observable transition events of one `spawn` call, in program order. -/
inductive SpawnEv where
  /-- `this.vms.set(id, ...)` inserting the fresh record with this status. -/
  | inserted (s : VMStatus)
  /-- `vm.status = s`. -/
  | statusSet (s : VMStatus)
  | provisionOk
  | provisionFail
  | proberOk
  | proberFail
  | connectOk
  | connectFail
deriving DecidableEq, Repr

/-- `spawn(config)`.  Guards in source order: missing API key throws first,
then the capacity check (`this.vms.size >= this.maxVms`).  The record is
inserted with status `spawning`; the try block then sets `setting_up`
BEFORE awaiting `provisionVM`, probes readiness, connects the SDK, stores
`{computer, meta, cloudName}`, sets the cloud-assigned name and `ready`,
registers with the fleet master (best-effort) and starts the heartbeat.
The catch sets `status='error'` and rethrows. -/
def VMManager.spawn (m : VMManager) (config : VMConfig) (env : SpawnEnv) :
    Except VMError VM × VMManager × List SpawnEv :=
  if m.apiKey = "" then (.error .noApiKey, m, [])
  else if m.vms.length ≥ m.maxVms then (.error (.resourceExhausted m.maxVms), m, [])
  else
    let id := env.newId
    let osType := config.osType.getD .windows
    let size := config.size.getD .small
    let vm0 : VM :=
      { id, name := config.name, osType, status := .spawning,
        tags := config.tags.getD [], size, resources := VM_SIZE_SPECS size,
        region := config.region, createdAt := env.now, lastActivity := none,
        currentTask := none, screenshotB64 := none, reasoning := none, lastAction := none }
    let m0 := m.setEntry id { computer := none, meta := vm0, cloudName := none }
    let m1 := m0.updateMeta id (fun v => { v with status := .setting_up })
    let ev1 : List SpawnEv := [.inserted .spawning, .statusSet .setting_up]
    match env.provision with
    | .error e =>
      (.error (.provisionFailed e),
       m1.updateMeta id (fun v => { v with status := .error }),
       ev1 ++ [.provisionFail, .statusSet .error])
    | .ok provision =>
      match waitForVMReady env.probe 180 with
      | .error e =>
        (.error e,
         m1.updateMeta id (fun v => { v with status := .error }),
         ev1 ++ [.provisionOk, .proberFail, .statusSet .error])
      | .ok _ =>
        match env.connect with
        | .error e =>
          (.error (.transportError e),
           m1.updateMeta id (fun v => { v with status := .error }),
           ev1 ++ [.provisionOk, .proberOk, .connectFail, .statusSet .error])
        | .ok _ =>
          let curMeta := ((m1.getEntry id).map (·.meta)).getD vm0
          let m2 := m1.setEntry id
            { computer := some { ifaceReady := true }, meta := curMeta,
              cloudName := some provision.name }
          let m3 := m2.updateMeta id (fun v =>
            { v with name := provision.name, status := .ready })
          let m4 := registerWithMaster m3 env.registerRes
          let m5 := m4.startHeartbeat id env.hbPush
          ((m5.get id).map .ok |>.getD (.ok curMeta), m5,
           ev1 ++ [.provisionOk, .proberOk, .connectOk, .statusSet .ready])

/-! ## `stop` (and `deleteVM`) -/

/-- Teardown actions one `stop` call performed, in program order. -/
inductive StopEv where
  /-- `this.stopHeartbeat(vmId)`. -/
  | heartbeatCancelled
  /-- the best-effort offline POST to the fleet master. -/
  | offlinePushAttempted
  /-- `await computer.stop()` (the transport close). -/
  | transportCloseCalled
  /-- `await this.deleteVM(cloudName)`. -/
  | deleteRequested (cloudName : String)
  /-- `this.vms.delete(vmId)`. -/
  | removedFromRegistry
deriving DecidableEq, Repr

/-- Oracle for one `stop` call. -/
structure StopEnv where
  /-- outcome of the offline-status POST. -/
  offlinePush : Except String Unit
  /-- outcome of `computer.stop()`. -/
  transportClose : Except String Unit
  /-- outcome of the DELETE fetch inside `deleteVM`: a rejection, or the
  HTTP status code of the response. -/
  deleteFetch : Except String Nat

/-- `deleteVM(cloudName)`: a non-2xx response other than 404 is only logged
(`console.error`), but a REJECTED fetch propagates — the source has no
try/catch around this `await fetch`. -/
def deleteVM (fetchRes : Except String Nat) (_cloudName : String) : Except VMError Unit :=
  match fetchRes with
  | .error e => .error (.deleteNetworkError e)
  | .ok _status => .ok ()

/-- `stop(vmId)`: no-op if the entry is absent.  Otherwise: cancel heartbeat,
best-effort offline push (outcome swallowed), `computer.stop()` in
try/catch (outcome swallowed, logged), then `await this.deleteVM(cloudName)`
— which, being outside any try/catch, aborts `stop` before the registry
delete if the DELETE fetch rejects — then `vm.status='stopped'` and
`this.vms.delete(vmId)`. -/
def VMManager.stop (m : VMManager) (vmId : String) (env : StopEnv) :
    Except VMError Unit × VMManager × List StopEv :=
  match m.getEntry vmId with
  | Option.none => (.ok (), m, [])
  | some entry =>
    let m1 := m.stopHeartbeat vmId
    let ev1 := [StopEv.heartbeatCancelled]
    -- `try { await fetch(...offline...) } catch { /* ignore */ }`
    let ev2 := if m1.enableMasterRegistration then ev1 ++ [.offlinePushAttempted] else ev1
    let m1 := match env.offlinePush with
      | .ok _ => m1
      | .error _ => m1
    -- `try { if (computer) await computer.stop() } catch (e) { console.error }`
    let ev3 := if entry.computer.isSome then ev2 ++ [.transportCloseCalled] else ev2
    let m1 := match env.transportClose with
      | .ok _ => m1
      | .error _ => m1
    match entry.cloudName with
    | some cn =>
      (match deleteVM env.deleteFetch cn with
       | .error e => (.error e, m1, ev3 ++ [.deleteRequested cn])
       | .ok _ =>
         let m2 := m1.updateMeta vmId (fun v => { v with status := .stopped })
         (.ok (), m2.deleteEntry vmId, ev3 ++ [.deleteRequested cn, .removedFromRegistry]))
    | Option.none =>
      let m2 := m1.updateMeta vmId (fun v => { v with status := .stopped })
      (.ok (), m2.deleteEntry vmId, ev3 ++ [.removedFromRegistry])

/-! ## Tunnel manager (`src/plugins/windows-mcp/bin/tunnel-manager.js`)

Module-level state: `activeTunnel` (one nullable variable), the health-check
interval, and the sidecar state file.  We additionally track the set of
tunnel OS processes that have been spawned and not yet killed or exited
(`running`, by pid), since the claim is about process teardown. -/

namespace TunnelManager

/-- `DEFAULT_LOCAL_PORT`. -/
def DEFAULT_LOCAL_PORT : Nat := 7788

/-- The `activeTunnel` object (we keep the fields the claims observe). -/
structure TunnelHandle where
  ttype : String
  procPid : Nat
  localPort : Nat
  remotePort : Option Nat
  startedAt : Nat
deriving DecidableEq, Repr

/-- Module state of tunnel-manager.js. -/
structure TMState where
  activeTunnel : Option TunnelHandle
  /-- pids of spawned tunnel processes that are still running (not killed,
  not exited). -/
  running : List Nat
  /-- next fresh pid. -/
  nextPid : Nat
  /-- whether the periodic health check interval is registered. -/
  healthCheckOn : Bool
  /-- the sidecar state file contents, `(type, localPort)`, if present. -/
  sidecar : Option (String × Nat)
deriving DecidableEq, Repr

/-- `findAvailablePort(startPort)`: bind-test ports upward from `startPort`
until one is free (`busy` says which ports are in use); fuelled for
termination, which the OS port range bounds in reality. -/
def findAvailablePort (busy : Nat → Bool) : Nat → Nat → Option Nat
  | 0, _ => Option.none
  | fuel + 1, p => if busy p then findAvailablePort busy fuel (p + 1) else some p

/-- The value `createTunnel` / the start functions resolve with. -/
structure TunnelResult where
  localPort : Option Nat
  endpoint : String
  ttype : String
deriving DecidableEq, Repr

/-- How the IAP tunnel establishment promise settles. -/
inductive IAPOutcome where
  /-- a recognised "Listening on port" / "tunnel is running" / "Listening" /
  "tunnel" line on stdout or stderr. -/
  | readySignal
  /-- 60 s without a ready signal: `proc.kill()` then reject. -/
  | timeout
  /-- the `gcloud` child process failed to spawn. -/
  | spawnError (msg : String)
  /-- the process exited before any ready signal. -/
  | exitedEarly (code : Int)
deriving DecidableEq, Repr

/-- `startIAPTunnel(options)`.  On the ready signal the new handle simply
OVERWRITES `activeTunnel`; no previously active handle is killed and its
process stays running.  On timeout / early exit / spawn failure, only the
NEW process ends (killed or already gone) and the promise rejects. -/
def startIAPTunnel (st : TMState) (remotePort : Nat) (busy : Nat → Bool)
    (outcome : IAPOutcome) (now : Nat) : Except String TunnelResult × TMState :=
  let port := (findAvailablePort busy 65536 DEFAULT_LOCAL_PORT).getD DEFAULT_LOCAL_PORT
  let pid := st.nextPid
  match outcome with
  | .readySignal =>
    let handle : TunnelHandle :=
      { ttype := "iap", procPid := pid, localPort := port,
        remotePort := some remotePort, startedAt := now }
    (.ok { localPort := some port, endpoint := "http://localhost:" ++ toString port, ttype := "iap" },
     { st with
       running := st.running ++ [pid],
       nextPid := st.nextPid + 1,
       activeTunnel := some handle,
       sidecar := some ("iap", port),     -- saveTunnelState()
       healthCheckOn := true })           -- startHealthCheck()
  | .timeout =>
    (.error "IAP tunnel timeout - failed to establish connection",
     { st with nextPid := st.nextPid + 1 })
  | .spawnError msg =>
    (.error ("Failed to start gcloud: " ++ msg), { st with nextPid := st.nextPid + 1 })
  | .exitedEarly code =>
    (.error ("IAP tunnel exited with code " ++ toString code),
     { st with nextPid := st.nextPid + 1 })

/-- How the SSH tunnel establishment promise settles. -/
inductive SSHOutcome where
  /-- after the 3 s settle delay, `checkPortOpen(localPort)` succeeded. -/
  | portOpen
  /-- the local port did not accept: `proc.kill()` then reject. -/
  | portClosed
  /-- 'Permission denied' / 'Connection refused' on stderr: kill + reject;
  carries the stderr line. -/
  | authError (msg : String)
  /-- the `ssh` child process failed to spawn. -/
  | spawnError (msg : String)
deriving DecidableEq, Repr

/-- `startSSHTunnel(options)` (username defaults to 'strawberry' in the
source's destructuring; it does not affect the state).  Same overwrite
behaviour as IAP on success. -/
def startSSHTunnel (st : TMState) (remotePort : Nat) (busy : Nat → Bool)
    (outcome : SSHOutcome) (now : Nat) : Except String TunnelResult × TMState :=
  let port := (findAvailablePort busy 65536 DEFAULT_LOCAL_PORT).getD DEFAULT_LOCAL_PORT
  let pid := st.nextPid
  match outcome with
  | .portOpen =>
    let handle : TunnelHandle :=
      { ttype := "ssh", procPid := pid, localPort := port,
        remotePort := some remotePort, startedAt := now }
    (.ok { localPort := some port, endpoint := "http://localhost:" ++ toString port, ttype := "ssh" },
     { st with
       running := st.running ++ [pid],
       nextPid := st.nextPid + 1,
       activeTunnel := some handle,
       sidecar := some ("ssh", port),
       healthCheckOn := true })
  | .portClosed =>
    (.error "SSH tunnel failed to establish", { st with nextPid := st.nextPid + 1 })
  | .authError msg =>
    (.error ("SSH error: " ++ msg), { st with nextPid := st.nextPid + 1 })
  | .spawnError msg =>
    (.error ("Failed to start ssh: " ++ msg), { st with nextPid := st.nextPid + 1 })

/-- How the Cloudflare tunnel establishment promise settles. -/
inductive CFOutcome where
  | registered
  | timeout
  | spawnError (msg : String)
  | exitedEarly (code : Int)
deriving DecidableEq, Repr

/-- `startCloudflareTunnel(options)`.  Note the cloudflare branch saves state
but does NOT call `startHealthCheck()`. -/
def startCloudflareTunnel (st : TMState) (hostname : Option String) (busy : Nat → Bool)
    (outcome : CFOutcome) (now : Nat) : Except String TunnelResult × TMState :=
  let port := (findAvailablePort busy 65536 DEFAULT_LOCAL_PORT).getD DEFAULT_LOCAL_PORT
  let pid := st.nextPid
  match outcome with
  | .registered =>
    let handle : TunnelHandle :=
      { ttype := "cloudflare", procPid := pid, localPort := port,
        remotePort := Option.none, startedAt := now }
    (.ok { localPort := some port,
           endpoint := "https://" ++ (hostname.getD "undefined"), ttype := "cloudflare" },
     { st with
       running := st.running ++ [pid],
       nextPid := st.nextPid + 1,
       activeTunnel := some handle,
       sidecar := some ("cloudflare", port) })
  | .timeout =>
    (.error "Cloudflare tunnel timeout", { st with nextPid := st.nextPid + 1 })
  | .spawnError msg =>
    (.error ("Failed to start cloudflared: " ++ msg), { st with nextPid := st.nextPid + 1 })
  | .exitedEarly code =>
    (.error ("Cloudflare tunnel exited with code " ++ toString code),
     { st with nextPid := st.nextPid + 1 })

/-- `stopTunnel()`: kill the active tunnel's process (if any), clear
`activeTunnel`, stop the health check, remove the sidecar file. -/
def stopTunnel (st : TMState) : TMState :=
  let st :=
    match st.activeTunnel with
    | some h =>
      { st with
        running := st.running.filter (fun p => ¬ p = h.procPid),
        activeTunnel := Option.none }
    | Option.none => st
  { st with healthCheckOn := false, sidecar := Option.none }

/-- The `credentials` object of `createTunnel` (JS-optional fields are
`Option`; `mcp_port` / `tunnel_type` defaults are applied by the
destructuring, so the caller supplies them resolved). -/
structure Credentials where
  host : Option String
  vm_name : Option String
  zone : Option String
  mcp_port : Nat
  tunnel_type : String
  username : Option String
  project : Option String
  tunnel_name : Option String
  tunnel_hostname : Option String
deriving DecidableEq, Repr

/-- Oracle for one `createTunnel` call (the establishment outcome of
whichever transport is chosen). -/
structure TunnelEnv where
  busy : Nat → Bool
  iapOutcome : IAPOutcome
  sshOutcome : SSHOutcome
  cfOutcome : CFOutcome
  now : Nat

/-- `createTunnel(credentials)`: `auto` resolution (zone+vm_name → iap, else
host → ssh, else fail — JS truthiness, so empty strings are falsy), then
dispatch.  `direct` touches no state. -/
def createTunnel (st : TMState) (cred : Credentials) (env : TunnelEnv) :
    Except String TunnelResult × TMState :=
  let tunnelType : Option String :=
    if cred.tunnel_type = "auto" then
      if strTruthy cred.zone ∧ strTruthy cred.vm_name then some "iap"
      else if strTruthy cred.host then some "ssh"
      else Option.none
    else some cred.tunnel_type
  match tunnelType with
  | Option.none => (.error "Cannot determine tunnel type - need zone+vm_name or host", st)
  | some t =>
    if t = "iap" then startIAPTunnel st cred.mcp_port env.busy env.iapOutcome env.now
    else if t = "ssh" then startSSHTunnel st cred.mcp_port env.busy env.sshOutcome env.now
    else if t = "cloudflare" then
      startCloudflareTunnel st cred.tunnel_hostname env.busy env.cfOutcome env.now
    else if t = "direct" then
      (.ok { localPort := Option.none,
             endpoint := "http://" ++ (cred.host.getD "undefined") ++ ":" ++ toString cred.mcp_port,
             ttype := "direct" }, st)
    else (.error ("Unknown tunnel type: " ++ t), st)

end TunnelManager

/-! ## Concrete fixtures for the witnesses and counterexamples -/

/-- A minimal session record. -/
def sampleVM (id : String) (osType : OSType) (status : VMStatus) : VM :=
  { id := id, name := id, osType, status, tags := [], size := .small,
    resources := VM_SIZE_SPECS .small, region := Option.none, createdAt := 0,
    lastActivity := Option.none, currentTask := Option.none,
    screenshotB64 := Option.none, reasoning := Option.none, lastAction := Option.none }

/-- An entry whose SDK connection is attached. -/
def readyEntry (vm : VM) (cloudName : Option String) : VMEntry :=
  { computer := some { ifaceReady := true }, meta := vm, cloudName := cloudName }

/-- A manager state. -/
def mgrWith (vms : List (String × VMEntry)) (timers : List String)
    (maxVms : Nat) (apiKey : String) : VMManager :=
  { vms := vms, heartbeatTimers := timers, maxVms := maxVms, apiKey := apiKey,
    enableMasterRegistration := true }

/-- A `VMConfig` with only a name. -/
def plainCfg (name : String) : VMConfig :=
  { name := name, osType := Option.none, region := Option.none,
    size := Option.none, tags := Option.none }

/-- A spawn oracle where everything succeeds. -/
def spawnEnvOk : SpawnEnv :=
  { newId := "id1", provision := .ok { name := "cloud-name", host := "cloud-host" },
    probe := fun _ => true, connect := .ok (), registerRes := .ok 200,
    hbPush := .ok (), now := 0 }

/-- A manager with no API key configured and `maxVms = 0` — its registry
(empty) already holds the configured maximum number of sessions. -/
def c1Mgr : VMManager := mgrWith [] [] 0 ""

/-- An at-capacity manager WITH an API key (for the C1 witness). -/
def c1MgrKeyed : VMManager :=
  mgrWith [("v0", readyEntry (sampleVM "v0" .linux .ready) (some "cn0"))] ["v0"] 1 "key"

/-- A registry holding one session in `error` status whose transport
interface is attached (the state `executeAction` itself leaves behind after
a transport failure). -/
def c2Mgr : VMManager :=
  mgrWith [("v1", readyEntry (sampleVM "v1" .linux .error) (some "cn"))] ["v1"] 5 "key"

/-- A pure screenshot action. -/
def c2Action : ComputerAction :=
  { type := .screenshot, x := Option.none, y := Option.none, text := Option.none,
    button := Option.none, key := Option.none, direction := Option.none,
    amount := Option.none }

/-- An action oracle where everything succeeds (resize pipeline fails, so
the raw buffer is kept — exercising the resize fallback). -/
def c2Env : ActionEnv :=
  { inputRes := .ok (), shot := .ok "RAWIMG", resize := .error "sharp failed", now := 7 }

/-- A manager with one ready linux session (used for stop / task claims). -/
def c3Mgr : VMManager :=
  mgrWith [("v1", readyEntry (sampleVM "v1" .linux .ready) (some "cn"))] ["v1"] 5 "key"

/-- A stop oracle whose provider DELETE fetch rejects at the network level. -/
def c3EnvFail : StopEnv :=
  { offlinePush := .ok (), transportClose := .ok (),
    deleteFetch := .error "fetch failed: ECONNRESET" }

/-- A stop oracle where every teardown call succeeds. -/
def stopEnvOk : StopEnv :=
  { offlinePush := .ok (), transportClose := .ok (), deleteFetch := .ok 200 }

/-- An empty manager with an API key (for the spawn-trace claims). -/
def c4Mgr : VMManager := mgrWith [] [] 5 "key"

/-- A spawn oracle whose provisioning call fails. -/
def c4EnvFail : SpawnEnv :=
  { spawnEnvOk with provision := .error "500 - internal error" }

/-- The session record a fully successful `c4Mgr.spawn (plainCfg "x") spawnEnvOk`
returns (windows by default, renamed to the cloud-assigned name, `ready`). -/
def c4FinalVM : VM :=
  { sampleVM "id1" .windows .ready with name := "cloud-name" }

/-- A task oracle where call `i` yields payload `RAW i` and the resize
pipeline fails (keeping the raw payload). -/
def taskEnvOk : TaskEnv :=
  { io := fun i => .ok ("RAW" ++ toString i), resize := fun _ => .error "no-resize" }

/-- A task oracle failing from call index 2 onward. -/
def taskEnvFailAt2 : TaskEnv :=
  { io := fun i => if i < 2 then .ok ("RAW" ++ toString i) else .error "boom",
    resize := fun _ => .error "no-resize" }

/-- A registry with one cached-frame session whose interface is NOT attached
(e.g. still spawning), for the getScreenshot claim. -/
def c10Mgr : VMManager :=
  mgrWith
    [("v1", { computer := Option.none,
              meta := { sampleVM "v1" .linux .spawning with screenshotB64 := some "CACHED" },
              cloudName := Option.none })] [] 5 "key"

/-- A getScreenshot oracle whose remote call rejects. -/
def c10EnvErr : ShotEnv :=
  { shot := .error "socket hang up", resize := .ok "RESIZED", now := 3 }

/-- Initial tunnel-manager state. -/
def c8St0 : TunnelManager.TMState :=
  { activeTunnel := Option.none, running := [], nextPid := 100,
    healthCheckOn := false, sidecar := Option.none }

/-- A tunnel oracle where establishment succeeds and every port is free. -/
def c8Env : TunnelManager.TunnelEnv :=
  { busy := fun _ => false, iapOutcome := .readySignal, sshOutcome := .portOpen,
    cfOutcome := .registered, now := 0 }

/-- IAP credentials (zone + vm_name present, `auto`). -/
def c8Cred : TunnelManager.Credentials :=
  { host := Option.none, vm_name := some "vm-a", zone := some "us-central1-a",
    mcp_port := 8080, tunnel_type := "auto", username := Option.none,
    project := Option.none, tunnel_name := Option.none, tunnel_hostname := Option.none }

/-! # Theorems

First some registry bookkeeping lemmas, then one theorem (plus witness /
counterexample where applicable) per claim C1–C10. -/

/-- `find?` over the point-update `updateMeta` performs. -/
theorem find?_pointUpdate (vmId : String) (f : VM → VM) :
    ∀ l : List (String × VMEntry),
      (l.map (fun p => if p.1 = vmId then (p.1, { p.2 with meta := f p.2.meta }) else p)).find?
          (fun p => p.1 = vmId)
        = (l.find? (fun p => p.1 = vmId)).map
            (fun p => (p.1, { p.2 with meta := f p.2.meta })) := by
  intro l
  induction l with
  | nil => rfl
  | cons p l ih =>
    by_cases hp : p.1 = vmId
    · simp [List.find?, hp]
    · simp [List.find?, hp, ih]

/-- Looking up the updated id after `updateMeta`. -/
theorem getEntry_updateMeta_self (m : VMManager) (vmId : String) (f : VM → VM) :
    (m.updateMeta vmId f).getEntry vmId
      = (m.getEntry vmId).map (fun e => { e with meta := f e.meta }) := by
  unfold VMManager.updateMeta VMManager.getEntry
  simp only [find?_pointUpdate]
  cases h : m.vms.find? (fun p => p.1 = vmId) <;> simp

/-- After `deleteEntry vmId` the id is gone. -/
theorem getEntry_deleteEntry_self (m : VMManager) (vmId : String) :
    (m.deleteEntry vmId).getEntry vmId = Option.none := by
  unfold VMManager.deleteEntry VMManager.getEntry
  have hfind : (m.vms.filter (fun p => ¬ p.1 = vmId)).find? (fun p => p.1 = vmId)
      = Option.none := by
    rw [List.find?_eq_none]
    intro p hp
    have := (List.mem_filter.mp hp).2
    simpa using this
  simp [hfind]

/-- `stopHeartbeat` does not touch the registry. -/
theorem getEntry_stopHeartbeat (m : VMManager) (vmId x : String) :
    (m.stopHeartbeat vmId).getEntry x = m.getEntry x := rfl

/-- `sendHeartbeat` never mutates the manager state. -/
theorem sendHeartbeat_state (m : VMManager) (vmId : String) (r : Except String Unit) :
    (m.sendHeartbeat vmId r).2 = m := by
  unfold VMManager.sendHeartbeat
  by_cases he : m.enableMasterRegistration <;>
    cases hg : m.get vmId <;> cases r <;> simp [he, hg]

/-!
### C9 — heartbeat failures are swallowed

For every manager state, session id and push outcome, `sendHeartbeat`
leaves the state untouched and its result does not depend on the outcome
at all (in particular a failed push never sets any session's status to
`error` and cannot fail a caller-visible operation); `startHeartbeat`
likewise never touches the registry whatever the outcome of its immediate
push. -/

/-- C9: a heartbeat network-push failure is swallowed: `sendHeartbeat`
returns the same value for a failed push as for a successful one and never
mutates the manager state (so no session status changes, at any point of a
session's lifetime), and `startHeartbeat` never touches the registry. -/
theorem c9_heartbeat_failures_swallowed (m : VMManager) (vmId : String)
    (r : Except String Unit) :
    (m.sendHeartbeat vmId r).2 = m ∧
    m.sendHeartbeat vmId r = m.sendHeartbeat vmId (.ok ()) ∧
    (m.startHeartbeat vmId r).vms = m.vms := by
  refine ⟨sendHeartbeat_state m vmId r, ?_, ?_⟩
  · unfold VMManager.sendHeartbeat
    by_cases he : m.enableMasterRegistration <;>
      cases hg : m.get vmId <;> cases r <;> simp [he, hg]
  · unfold VMManager.startHeartbeat
    by_cases he : m.enableMasterRegistration <;> simp [he, sendHeartbeat_state]

/-!
### C10 — `getScreenshot` never raises on a transport failure

For every id present in the registry, the result is `.ok`; and whenever the
interface is not attached or the remote screenshot call throws, the returned
frame's image is the cached `vm.screenshotB64 || ''` and the state is
untouched. -/

/-- C10: for a session present in the registry, `getScreenshot` always
returns a frame (never an error); when the transport interface is not
attached, or the remote screenshot call throws, that frame's image is the
cached last frame (`''` if none was ever cached) and the registry is left
unchanged — the result type does not distinguish the stale frame from a
fresh one. -/
theorem c10_getScreenshot_returns_cache_on_failure (m : VMManager) (vmId : String)
    (env : ShotEnv) (entry : VMEntry) (h : m.getEntry vmId = some entry) :
    ((m.getScreenshot vmId env).1.isOk = true) ∧
    (¬ ifaceUp entry.computer = true ∨ (∃ e, env.shot = .error e) →
      (m.getScreenshot vmId env).1.toOption.map Screenshot.imageB64
          = some (jsOr entry.meta.screenshotB64 "") ∧
      (m.getScreenshot vmId env).2 = m) := by
  unfold VMManager.getScreenshot
  rw [h]
  by_cases hi : ifaceUp entry.computer
  · cases hs : env.shot with
    | ok raw =>
      refine ⟨by simp [hi, Except.isOk, Except.toBool], ?_⟩
      rintro (hni | ⟨e, he⟩)
      · exact absurd hi hni
      · simp at he
    | error e =>
      exact ⟨by simp [hi, Except.isOk, Except.toBool],
        fun _ => ⟨by simp [hi, Except.toOption], by simp [hi]⟩⟩
  · exact ⟨by simp [hi, Except.isOk, Except.toBool],
      fun _ => ⟨by simp [hi, Except.toOption], by simp [hi]⟩⟩

/-- C10 witness: a spawning session with a cached frame and a rejecting
remote call yields exactly the cached frame and an unchanged state. -/
theorem c10_witness :
    (c10Mgr.getScreenshot "v1" c10EnvErr).1.toOption.map Screenshot.imageB64
        = some (jsOr (some "CACHED") "") ∧
    (c10Mgr.getScreenshot "v1" c10EnvErr).2 = c10Mgr :=
  (c10_getScreenshot_returns_cache_on_failure c10Mgr "v1" c10EnvErr
      { computer := Option.none,
        meta := { sampleVM "v1" .linux .spawning with screenshotB64 := some "CACHED" },
        cloudName := Option.none } (by decide)).2 (Or.inl (by decide))

/-!
### C1 — `spawn` at capacity

The claim says spawn at capacity returns `ResourceExhausted` for EVERY
configuration.  In the source the missing-API-key guard runs BEFORE the
capacity guard, so a manager with no API key configured returns the
missing-key error even when the registry already holds `maxVms` sessions
(concretely: `maxVms = 0`, empty registry — 0/0 is at capacity).  The
"never mutates the registry" half holds unconditionally. -/

/-- C1 counterexample: with no API key and `maxVms = 0`, the registry
already holds the configured maximum number of sessions, yet `spawn`
returns the missing-key error, not `ResourceExhausted`. -/
theorem c1_counterexample :
    c1Mgr.vms.length ≥ c1Mgr.maxVms ∧
    (c1Mgr.spawn (plainCfg "x") spawnEnvOk).1 = .error .noApiKey ∧
    ¬ (c1Mgr.spawn (plainCfg "x") spawnEnvOk).1
        = .error (.resourceExhausted c1Mgr.maxVms) ∧
    (c1Mgr.spawn (plainCfg "x") spawnEnvOk).2.1 = c1Mgr := by
  refine ⟨by decide, rfl, ?_, rfl⟩
  intro hcontra
  simp [VMManager.spawn, c1Mgr, mgrWith] at hcontra

/-- C1 (amended): `spawn` at capacity never mutates the registry and emits
no events; when an API key is configured it returns `ResourceExhausted`,
and with no API key it returns the missing-key error (that guard runs
first), likewise without mutating. -/
theorem c1_amended (m : VMManager) (cfg : VMConfig) (env : SpawnEnv)
    (hcap : m.vms.length ≥ m.maxVms) :
    (m.spawn cfg env).2.1 = m ∧ (m.spawn cfg env).2.2 = [] ∧
    (¬ m.apiKey = "" → (m.spawn cfg env).1 = .error (.resourceExhausted m.maxVms)) ∧
    (m.apiKey = "" → (m.spawn cfg env).1 = .error .noApiKey) := by
  unfold VMManager.spawn
  by_cases hk : m.apiKey = "" <;> simp [hk, hcap]

/-- C1 witness: a keyed manager at capacity (1/1) rejects with
`ResourceExhausted`, unchanged registry, no events. -/
theorem c1_amended_witness :
    (c1MgrKeyed.spawn (plainCfg "x") spawnEnvOk).2.1 = c1MgrKeyed ∧
    (c1MgrKeyed.spawn (plainCfg "x") spawnEnvOk).2.2 = [] ∧
    (c1MgrKeyed.spawn (plainCfg "x") spawnEnvOk).1
      = .error (.resourceExhausted c1MgrKeyed.maxVms) := by
  have h := c1_amended c1MgrKeyed (plainCfg "x") spawnEnvOk (by decide)
  exact ⟨h.1, h.2.1, h.2.2.1 (by decide)⟩

/-!
### C4 — `spawn` status ordering

The claim requires the transition to `setting_up` to happen only AFTER the
Provisioner call has succeeded.  In the source, `vm.status = 'setting_up'`
is executed immediately BEFORE `await this.provisionVM(...)`: the session
is in `setting_up` while (and even if) provisioning fails.  The second half
— `ready` only after prober and transport attach succeeded, in that order —
does hold. -/

/-- C4 counterexample: with a failing provisioner, the spawn event trace is
`inserted spawning; status := setting_up; provision FAILED; status := error`
— the session entered `setting_up` although the Provisioner call never
succeeded. -/
theorem c4_counterexample :
    (c4Mgr.spawn (plainCfg "x") c4EnvFail).2.2
        = [.inserted .spawning, .statusSet .setting_up, .provisionFail, .statusSet .error] ∧
    (c4Mgr.spawn (plainCfg "x") c4EnvFail).1
        = .error (.provisionFailed "500 - internal error") := by
  exact ⟨rfl, rfl⟩

/-- C4 (amended): `spawn` inserts the record with status `spawning` and then
sets `setting_up` immediately, BEFORE invoking the Provisioner; it
transitions to `ready` only on the fully successful path, after the
Provisioner, the Readiness Prober and the transport attach have succeeded,
in that order (the event trace of a successful spawn is exactly
insert-spawning, setting_up, provision ok, prober ok, connect ok, ready). -/
theorem c4_amended (m : VMManager) (cfg : VMConfig) (env : SpawnEnv)
    (hk : ¬ m.apiKey = "") (hcap : m.vms.length < m.maxVms) :
    (m.spawn cfg env).2.2.take 2 = [.inserted .spawning, .statusSet .setting_up] ∧
    ((m.spawn cfg env).1.isOk = true →
      (m.spawn cfg env).2.2
        = [.inserted .spawning, .statusSet .setting_up,
           .provisionOk, .proberOk, .connectOk, .statusSet .ready]) := by
  unfold VMManager.spawn
  have hge : ¬ m.vms.length ≥ m.maxVms := Nat.not_le.mpr hcap
  cases hp : env.provision with
  | error e => simp [hk, hge, hp, Except.isOk, Except.toBool]
  | ok prov =>
    cases hw : waitForVMReady env.probe 180 with
    | error e => simp [hk, hge, hp, hw, Except.isOk, Except.toBool]
    | ok k =>
      cases hc : env.connect with
      | error e => simp [hk, hge, hp, hw, hc, Except.isOk, Except.toBool]
      | ok u =>
        refine ⟨by simp [hk, hge, hp, hw, hc], fun _ => by simp [hk, hge, hp, hw, hc]⟩

/-- C4 witness: a fully successful spawn on an empty keyed manager produces
exactly the six-event trace. -/
theorem c4_amended_witness :
    (c4Mgr.spawn (plainCfg "x") spawnEnvOk).2.2
      = [.inserted .spawning, .statusSet .setting_up,
         .provisionOk, .proberOk, .connectOk, .statusSet .ready] :=
  (c4_amended c4Mgr (plainCfg "x") spawnEnvOk (by decide) (by decide)).2 (by decide)

/-!
### C2 — `executeAction` status gating

The claim says `executeAction` succeeds only for sessions in
`{ready, idle, working}` and returns `InvalidState` otherwise.  The source
performs NO status check at all: it checks only that the entry exists and
that `computer.interface` is attached.  A session in `error` status with a
live interface (exactly what `executeAction` itself leaves behind after a
transport failure) executes the action successfully; and a `stopped`
session has been removed from the registry, so it yields NotFound, not
InvalidState. -/

/-- C2 counterexample: on a session in `error` status with an attached
interface, `executeAction` succeeds (returning the post-action frame) and
mutates the record (`lastActivity`, `screenshotB64`), instead of rejecting
with `InvalidState`. -/
theorem c2_counterexample :
    (c2Mgr.get "v1").map VM.status = some .error ∧
    (c2Mgr.executeAction "v1" c2Action c2Env).1
      = .ok { vmId := "v1", imageB64 := "RAWIMG", timestamp := 7,
              reasoning := Option.none, lastAction := some "screenshot()" } ∧
    ((c2Mgr.executeAction "v1" c2Action c2Env).2.get "v1").map VM.lastActivity
      = some (some 7) := by
  exact ⟨rfl, rfl, rfl⟩

/-- C2 (amended): `executeAction` gates only on presence and interface
readiness, never on status: a missing session (which includes every stopped
session, since `stop` removes them) yields NotFound with the state
untouched; a session without an attached interface yields
InterfaceNotReady with the state untouched; and any present session with an
attached interface — whatever its status — has the action attempted, which
succeeds whenever the interface calls succeed. -/
theorem c2_amended (m : VMManager) (vmId : String) (a : ComputerAction) (env : ActionEnv) :
    (m.getEntry vmId = Option.none →
      m.executeAction vmId a env = (.error (.notFound vmId), m)) ∧
    (∀ entry, m.getEntry vmId = some entry → ¬ ifaceUp entry.computer = true →
      m.executeAction vmId a env = (.error (.interfaceNotReady vmId), m)) ∧
    (∀ entry, m.getEntry vmId = some entry → ifaceUp entry.computer = true →
      (needsInputCall a = true → env.inputRes = .ok ()) →
      ∀ raw, env.shot = .ok raw →
        (m.executeAction vmId a env).1.isOk = true) := by
  refine ⟨?_, ?_, ?_⟩
  · intro h
    unfold VMManager.executeAction
    rw [h]
  · intro entry h hni
    unfold VMManager.executeAction
    rw [h]
    simp [hni]
  · intro entry h hi hin raw hraw
    unfold VMManager.executeAction
    rw [h]
    by_cases hn : needsInputCall a = true
    · simp [hi, hn, hin hn, hraw, Except.isOk, Except.toBool]
    · simp [hi, hn, hraw, Except.isOk, Except.toBool]

/-- C2 witness: the success clause of the amended claim, applied to the
`error`-status session with a live interface. -/
theorem c2_amended_witness :
    (c2Mgr.executeAction "v1" c2Action c2Env).1.isOk = true :=
  (c2_amended c2Mgr "v1" c2Action c2Env).2.2
    (readyEntry (sampleVM "v1" .linux .error) (some "cn"))
    (by decide) (by decide) (fun _ => rfl) "RAWIMG" rfl

/-!
### C3 — `stop` teardown failures vs registry removal

`stop` does swallow offline-push failures and transport-close failures
(`computer.stop()` is inside try/catch), and `deleteVM` only logs a non-2xx
HTTP response.  But the `await this.deleteVM(cloudName)` inside `stop` is
NOT wrapped in any try/catch, so a network-level rejection of the DELETE
fetch propagates out of `stop` before `this.vms.delete(vmId)` runs: that
provider-delete failure DOES prevent registry removal, contradicting the
claim's "never propagates so as to prevent Registry removal". -/

/-- C3 counterexample: a session whose provider DELETE fetch rejects — the
stop call itself rejects with that error and the session is still in the
registry afterwards. -/
theorem c3_counterexample :
    (c3Mgr.stop "v1" c3EnvFail).1 = .error (.deleteNetworkError "fetch failed: ECONNRESET") ∧
    ((c3Mgr.stop "v1" c3EnvFail).2.1.getEntry "v1").isSome = true := by
  exact ⟨rfl, rfl⟩

/-- C3 (amended): for a session present in the registry, `stop` removes it
whenever the DELETE fetch gets any HTTP response at all (any status,
including non-2xx — those are only logged) or no provider VM exists; the
offline-push and transport-close outcomes never influence the result at
all.  But when the DELETE fetch itself rejects, `stop` propagates
`deleteNetworkError` and the session remains in the registry. -/
theorem c3_amended (m : VMManager) (vmId : String) (env : StopEnv) (entry : VMEntry)
    (h : m.getEntry vmId = some entry) :
    (∀ s, env.deleteFetch = .ok s →
      (m.stop vmId env).1 = .ok () ∧ (m.stop vmId env).2.1.getEntry vmId = Option.none) ∧
    (entry.cloudName = Option.none →
      (m.stop vmId env).1 = .ok () ∧ (m.stop vmId env).2.1.getEntry vmId = Option.none) ∧
    (∀ e, env.deleteFetch = .error e → ∀ cn, entry.cloudName = some cn →
      (m.stop vmId env).1 = .error (.deleteNetworkError e) ∧
      (m.stop vmId env).2.1.getEntry vmId = some entry) ∧
    (∀ tc oc, m.stop vmId { env with transportClose := tc, offlinePush := oc }
      = m.stop vmId env) := by
  refine ⟨?_, ?_, ?_, ?_⟩
  · intro s hs
    unfold VMManager.stop
    rw [h]
    cases hop : env.offlinePush <;> cases htc : env.transportClose <;>
      cases hcn : entry.cloudName <;>
        simp [hs, hcn, deleteVM, getEntry_deleteEntry_self]
  · intro hcn
    unfold VMManager.stop
    rw [h]
    cases hop : env.offlinePush <;> cases htc : env.transportClose <;>
      simp [hcn, getEntry_deleteEntry_self]
  · intro e he cn hcn
    unfold VMManager.stop
    rw [h]
    cases hop : env.offlinePush <;> cases htc : env.transportClose <;>
      (refine ⟨by simp [hop, htc, he, hcn, deleteVM], ?_⟩
       simp only [hop, htc, he, hcn, deleteVM]
       exact h)
  · intro tc oc
    unfold VMManager.stop
    rw [h]
    cases tc <;> cases oc <;>
      cases hop : env.offlinePush <;> cases htc : env.transportClose <;> simp

/-- C3 witness: with a 200 DELETE response the session is removed and the
stop call succeeds. -/
theorem c3_amended_witness :
    (c3Mgr.stop "v1" stopEnvOk).1 = .ok () ∧
    (c3Mgr.stop "v1" stopEnvOk).2.1.getEntry "v1" = Option.none :=
  (c3_amended c3Mgr "v1" stopEnvOk
      (readyEntry (sampleVM "v1" .linux .ready) (some "cn")) (by decide)).1 200 rfl

/-!
### C5 — idempotence of `stop`

A completed `stop` removes the entry, so a second call is a genuine no-op
(and `stop` on an id that was never created is a no-op).  But the claim's
unconditional form fails: when the first `stop` rejects inside
`deleteVM` (see C3) the session is still registered and the transport has
already been closed once — a second `stop` then closes the transport a
SECOND time, and the registry after two stops differs from after one. -/

/-- `stop` on an absent id is a no-op. -/
theorem stop_absent (m : VMManager) (vmId : String) (env : StopEnv)
    (h : m.getEntry vmId = Option.none) :
    m.stop vmId env = (.ok (), m, []) := by
  unfold VMManager.stop
  rw [h]

/-- Either `stop` succeeded and the id is gone, or it failed and the
registry lookup is untouched. -/
theorem stop_cases (m : VMManager) (vmId : String) (env : StopEnv) :
    ((m.stop vmId env).1.isOk = true ∧ (m.stop vmId env).2.1.getEntry vmId = Option.none)
    ∨ ((m.stop vmId env).1.isOk = false
        ∧ (m.stop vmId env).2.1.getEntry vmId = m.getEntry vmId) := by
  unfold VMManager.stop
  cases hg : m.getEntry vmId with
  | none => exact Or.inl ⟨rfl, by simpa using hg⟩
  | some entry =>
    cases hop : env.offlinePush <;> cases htc : env.transportClose <;>
      cases hcn : entry.cloudName <;> cases hdf : env.deleteFetch <;>
        simp only [hop, htc, hcn, hdf, deleteVM] <;>
          first
          | exact Or.inl ⟨rfl, getEntry_deleteEntry_self _ vmId⟩
          | exact Or.inr ⟨rfl, (getEntry_stopHeartbeat m vmId vmId).trans hg⟩

/-- A `stop` that returned `.ok` has removed the id from the registry. -/
theorem stop_ok_getEntry_none (m : VMManager) (vmId : String) (env : StopEnv)
    (h : (m.stop vmId env).1.isOk = true) :
    (m.stop vmId env).2.1.getEntry vmId = Option.none := by
  rcases stop_cases m vmId env with ⟨_, hgone⟩ | ⟨hfail, _⟩
  · exact hgone
  · rw [h] at hfail; cases hfail

/-- C5 counterexample: when the first `stop` fails at the provider DELETE,
it has already closed the transport once, left the session registered, and
a second `stop` closes the transport AGAIN and changes the registry — so
`stop∘stop ≠ stop` as the claim's unconditional reading requires. -/
theorem c5_counterexample :
    StopEv.transportCloseCalled ∈ (c3Mgr.stop "v1" c3EnvFail).2.2 ∧
    (c3Mgr.stop "v1" c3EnvFail).1.isOk = false ∧
    StopEv.transportCloseCalled ∈ ((c3Mgr.stop "v1" c3EnvFail).2.1.stop "v1" stopEnvOk).2.2 ∧
    ¬ ((c3Mgr.stop "v1" c3EnvFail).2.1.stop "v1" stopEnvOk).2.1.vms
        = (c3Mgr.stop "v1" c3EnvFail).2.1.vms := by
  refine ⟨by decide, rfl, by decide, by decide⟩

/-- C5 (amended): `stop` is idempotent given the first call completed: after
a `stop` that returned without error, a second `stop` on the same id — with
ANY teardown outcomes — returns `.ok`, performs no teardown action at all
(no transport close, empty event trace) and leaves the registry exactly as
the first call left it; likewise `stop` of a never-created id is a silent
no-op. -/
theorem c5_amended (m : VMManager) (vmId : String) (env1 env2 : StopEnv)
    (h : (m.stop vmId env1).1.isOk = true) :
    (m.stop vmId env1).2.1.stop vmId env2 = (.ok (), (m.stop vmId env1).2.1, []) ∧
    (m.getEntry vmId = Option.none → m.stop vmId env1 = (.ok (), m, [])) := by
  exact ⟨stop_absent _ vmId env2 (stop_ok_getEntry_none m vmId env1 h),
         fun hab => stop_absent m vmId env1 hab⟩

/-- C5 witness: after a successful stop of the only session, a second stop
is a no-op with an empty teardown trace. -/
theorem c5_amended_witness :
    ((c3Mgr.stop "v1" stopEnvOk).2.1.stop "v1" stopEnvOk)
      = (.ok (), (c3Mgr.stop "v1" stopEnvOk).2.1, []) :=
  (c5_amended c3Mgr "v1" stopEnvOk stopEnvOk rfl).1

/-!
### C8 — one active tunnel, prior handle torn down first

The module keeps a single `activeTunnel` variable, so at most one handle is
ever RECORDED as active.  But `createTunnel` never calls `stopTunnel` (nor
`kill`) on a prior handle: when a new tunnel becomes ready the variable is
simply overwritten and the prior tunnel's OS process keeps running (the SSH
close handler's `activeTunnel?.process === proc` guard exists precisely
because a replaced process can outlive its slot).  The claim's "the prior
tunnel's process is terminated before the new one becomes active" is
false. -/

/-- C8 counterexample: two successive successful `createTunnel` calls.  The
first spawns process 100 and records it active; the second records process
101 active — and process 100 is STILL running (`running = [100, 101]`),
never having been terminated. -/
theorem c8_counterexample :
    (TunnelManager.createTunnel c8St0 c8Cred c8Env).2.activeTunnel.map
        TunnelManager.TunnelHandle.procPid = some 100 ∧
    ((TunnelManager.createTunnel
        (TunnelManager.createTunnel c8St0 c8Cred c8Env).2 c8Cred c8Env).2.activeTunnel.map
        TunnelManager.TunnelHandle.procPid = some 101) ∧
    (TunnelManager.createTunnel
        (TunnelManager.createTunnel c8St0 c8Cred c8Env).2 c8Cred c8Env).2.running
      = [100, 101] := by
  exact ⟨rfl, rfl, rfl⟩

/-- C8 (amended): at most one Transport Handle is RECORDED as active (the
single `activeTunnel` slot), but establishing a new tunnel never terminates
any previously running tunnel process: every pid running before a
`createTunnel` call is still running after it, and on success the slot is
overwritten with a handle owning a FRESH process (one that was not among the
previously running ones); the prior process is orphaned, not torn down —
only `stopTunnel` (or the process-exit handlers) kills it. -/
theorem startIAPTunnel_no_teardown (st : TunnelManager.TMState) (remotePort : Nat)
    (busy : Nat → Bool) (outcome : TunnelManager.IAPOutcome) (now : Nat) :
    (∀ p ∈ st.running, p ∈ (TunnelManager.startIAPTunnel st remotePort busy outcome now).2.running) ∧
    (∀ res, (TunnelManager.startIAPTunnel st remotePort busy outcome now).1 = .ok res →
      ∃ h, (TunnelManager.startIAPTunnel st remotePort busy outcome now).2.activeTunnel = some h ∧
        h.procPid = st.nextPid) := by
  cases outcome <;>
    exact ⟨fun p hp => by first
            | exact hp
            | exact List.mem_append_left _ hp,
           fun res hres => by first
            | exact ⟨_, rfl, rfl⟩
            | simp [TunnelManager.startIAPTunnel] at hres⟩

theorem startSSHTunnel_no_teardown (st : TunnelManager.TMState) (remotePort : Nat)
    (busy : Nat → Bool) (outcome : TunnelManager.SSHOutcome) (now : Nat) :
    (∀ p ∈ st.running, p ∈ (TunnelManager.startSSHTunnel st remotePort busy outcome now).2.running) ∧
    (∀ res, (TunnelManager.startSSHTunnel st remotePort busy outcome now).1 = .ok res →
      ∃ h, (TunnelManager.startSSHTunnel st remotePort busy outcome now).2.activeTunnel = some h ∧
        h.procPid = st.nextPid) := by
  cases outcome <;>
    exact ⟨fun p hp => by first
            | exact hp
            | exact List.mem_append_left _ hp,
           fun res hres => by first
            | exact ⟨_, rfl, rfl⟩
            | simp [TunnelManager.startSSHTunnel] at hres⟩

theorem startCloudflareTunnel_no_teardown (st : TunnelManager.TMState)
    (hostname : Option String) (busy : Nat → Bool) (outcome : TunnelManager.CFOutcome)
    (now : Nat) :
    (∀ p ∈ st.running,
        p ∈ (TunnelManager.startCloudflareTunnel st hostname busy outcome now).2.running) ∧
    (∀ res, (TunnelManager.startCloudflareTunnel st hostname busy outcome now).1 = .ok res →
      ∃ h, (TunnelManager.startCloudflareTunnel st hostname busy outcome now).2.activeTunnel
            = some h ∧ h.procPid = st.nextPid) := by
  cases outcome <;>
    exact ⟨fun p hp => by first
            | exact hp
            | exact List.mem_append_left _ hp,
           fun res hres => by first
            | exact ⟨_, rfl, rfl⟩
            | simp [TunnelManager.startCloudflareTunnel] at hres⟩

theorem c8_amended (st : TunnelManager.TMState) (cred : TunnelManager.Credentials)
    (env : TunnelManager.TunnelEnv)
    (hfresh : ∀ p ∈ st.running, p < st.nextPid) :
    (∀ p ∈ st.running, p ∈ (TunnelManager.createTunnel st cred env).2.running) ∧
    (∀ res, (TunnelManager.createTunnel st cred env).1 = .ok res → ¬ res.ttype = "direct" →
      ∃ h, (TunnelManager.createTunnel st cred env).2.activeTunnel = some h ∧
        h.procPid ∉ st.running) := by
  have hnotmem : st.nextPid ∉ st.running := fun hmem => lt_irrefl _ (hfresh _ hmem)
  have main : ∀ (pr : Except String TunnelManager.TunnelResult × TunnelManager.TMState),
      ((∀ p ∈ st.running, p ∈ pr.2.running) ∧
        (∀ res, pr.1 = .ok res → ∃ h, pr.2.activeTunnel = some h ∧ h.procPid = st.nextPid)) →
      (∀ p ∈ st.running, p ∈ pr.2.running) ∧
      (∀ res, pr.1 = .ok res → ¬ res.ttype = "direct" →
        ∃ h, pr.2.activeTunnel = some h ∧ h.procPid ∉ st.running) := by
    rintro pr ⟨h1, h2⟩
    refine ⟨h1, fun res hres _ => ?_⟩
    obtain ⟨h, hh, hpid⟩ := h2 res hres
    exact ⟨h, hh, hpid ▸ hnotmem⟩
  unfold TunnelManager.createTunnel
  by_cases hauto : cred.tunnel_type = "auto"
  · by_cases hzv : strTruthy cred.zone = true ∧ strTruthy cred.vm_name = true
    · simp only [hauto, hzv, if_true, reduceIte]
      exact main _ (startIAPTunnel_no_teardown st cred.mcp_port env.busy env.iapOutcome env.now)
    · by_cases hh : strTruthy cred.host = true
      · simp only [hauto, hzv, hh, if_true, if_false, reduceIte]
        exact main _ (startSSHTunnel_no_teardown st cred.mcp_port env.busy env.sshOutcome env.now)
      · simp only [hauto, hzv, hh, if_false, reduceIte]
        exact ⟨fun p hp => hp, fun res hres _ => by simp at hres⟩
  · simp only [hauto, reduceIte]
    by_cases h1 : cred.tunnel_type = "iap"
    · simp only [h1, reduceIte]
      exact main _ (startIAPTunnel_no_teardown st cred.mcp_port env.busy env.iapOutcome env.now)
    · by_cases h2 : cred.tunnel_type = "ssh"
      · simp only [h1, h2, reduceIte]
        exact main _ (startSSHTunnel_no_teardown st cred.mcp_port env.busy env.sshOutcome env.now)
      · by_cases h3 : cred.tunnel_type = "cloudflare"
        · simp only [h1, h2, h3, reduceIte]
          exact main _ (startCloudflareTunnel_no_teardown st cred.tunnel_hostname env.busy
            env.cfOutcome env.now)
        · by_cases h4 : cred.tunnel_type = "direct"
          · simp only [h1, h2, h3, h4, reduceIte]
            refine ⟨fun p hp => hp, fun res hres hd => ?_⟩
            have hdd : res.ttype = "direct" := by
              cases hres
              rfl
            exact absurd hdd hd
          · simp only [h1, h2, h3, h4, reduceIte]
            exact ⟨fun p hp => hp, fun res hres _ => by simp at hres⟩

/-- C8 witness: on a fresh state, every previously running pid (vacuously)
survives a successful IAP `createTunnel`, whose new handle's pid is fresh. -/
theorem c8_amended_witness :
    ∃ h, (TunnelManager.createTunnel c8St0 c8Cred c8Env).2.activeTunnel = some h ∧
      h.procPid ∉ c8St0.running :=
  (c8_amended c8St0 c8Cred c8Env (by decide)).2
    { localPort := some 7788, endpoint := "http://localhost:7788", ttype := "iap" }
    rfl (by decide)

/-!
### C7 — the navigate scenario and the no-op task

`ExecuteTask(id, "go to example.com")` on a ready Linux session parses to a
navigate action with url `https://example.com` and (all interface calls
succeeding) returns `success=true` with 3 captured frames (initial, после
browser launch, after navigation) — in particular at least one; a task
matching no phrase pattern ("tell me a story") is still accepted, performs
no actions, and returns success with exactly the one initial frame. -/

/-- C7: on the ready Linux session `v1`, "go to example.com" parses to
`navigate https://example.com` and succeeds with 3 ≥ 1 captured frames;
the unmatched task "tell me a story" parses to `none`, is accepted,
performs no actions (its output is the no-op message) and still succeeds
with one captured frame. -/
theorem c7_navigate_and_noop :
    parseBrowserTask "go to example.com" = .navigate "https://example.com" ∧
    (c3Mgr.executeTask "v1" "go to example.com" taskEnvOk 5 100).1.toOption.map
        (fun r => (r.success, r.screenshots.length))
      = some (true, 3) ∧
    parseBrowserTask "tell me a story" = .none ∧
    (c3Mgr.executeTask "v1" "tell me a story" taskEnvOk 5 100).1.toOption.map
        (fun r => (r.success, r.screenshots.length, r.output))
      = some (true, 1,
          "Task \"tell me a story\" ready for execution. Screenshot captured. " ++
            "Use computer_action to perform specific actions.") := by
  exact ⟨by decide, rfl, by decide, rfl⟩

/-!
### C6 — task failures preserve captured frames

Inside the `try` block every frame is pushed onto `screenshots` as soon as
it is captured, and the catch returns that same array, so a failure at any
step keeps exactly the frames captured before it.  We formalise "keeps the
frames captured before the failure" without tautology by comparing a run
against a more successful run of the same session: if `env'` succeeds
wherever `env` does (with the same payloads), the screenshots of the
`env` run form a prefix of those of the `env'` run. -/

/-- Whatever happens, a run only appends to the accumulated screenshots. -/
theorem runSteps_shots_extend (vmId : String) (env : TaskEnv) (now : Nat) :
    ∀ (steps : List TStep) (acc : RunAcc),
      acc.screenshots <+:
        (match runSteps vmId env now steps acc with
         | .ok a => a.screenshots
         | .error (_, a) => a.screenshots) := by
  intro steps
  induction steps with
  | nil => intro acc; exact List.prefix_refl _
  | cons s rest ih =>
    intro acc
    cases s with
    | call lbl =>
      cases hio : env.io acc.idx with
      | ok r => simpa [runSteps, hio] using ih { acc with idx := acc.idx + 1 }
      | error e => simp [runSteps, hio]
    | note a =>
      simpa [runSteps] using ih { acc with actions := acc.actions ++ [a] }
    | shot r la =>
      cases hio : env.io acc.idx with
      | ok raw =>
        simp only [runSteps, hio]
        refine (List.prefix_append acc.screenshots
          [{ vmId := vmId, imageB64 := resizeScreenshot raw (env.resize acc.idx),
             timestamp := now, reasoning := some r, lastAction := some la }]).trans ?_
        simpa using ih
          { acc with
            idx := acc.idx + 1,
            screenshots := acc.screenshots ++
              [{ vmId := vmId, imageB64 := resizeScreenshot raw (env.resize acc.idx),
                 timestamp := now, reasoning := some r, lastAction := some la }],
            lastImage := some (resizeScreenshot raw (env.resize acc.idx)) }
      | error e => simp [runSteps, hio]

/-- If `env'` succeeds (with the same payload) wherever `env` does, and
resizes identically, then the screenshots of the `env` run are a prefix of
those of the `env'` run — whether either run fails or not. -/
theorem runSteps_shots_mono (vmId : String) (env env' : TaskEnv) (now : Nat)
    (hio : ∀ i r, env.io i = .ok r → env'.io i = .ok r)
    (hres : ∀ i, env.resize i = env'.resize i) :
    ∀ (steps : List TStep) (acc : RunAcc),
      (match runSteps vmId env now steps acc with
       | .ok a => a.screenshots
       | .error (_, a) => a.screenshots) <+:
      (match runSteps vmId env' now steps acc with
       | .ok a => a.screenshots
       | .error (_, a) => a.screenshots) := by
  intro steps
  induction steps with
  | nil => intro acc; exact List.prefix_refl _
  | cons s rest ih =>
    intro acc
    cases s with
    | call lbl =>
      cases hio1 : env.io acc.idx with
      | ok r =>
        have h2 := hio _ _ hio1
        simpa [runSteps, hio1, h2] using ih { acc with idx := acc.idx + 1 }
      | error e =>
        cases hio2 : env'.io acc.idx with
        | ok r' =>
          simpa [runSteps, hio1, hio2] using
            runSteps_shots_extend vmId env' now rest { acc with idx := acc.idx + 1 }
        | error e' => simp [runSteps, hio1, hio2]
    | note a =>
      simpa [runSteps] using ih { acc with actions := acc.actions ++ [a] }
    | shot r la =>
      cases hio1 : env.io acc.idx with
      | ok raw =>
        have h2 := hio _ _ hio1
        have h3 := hres acc.idx
        simpa [runSteps, hio1, h2, ← h3] using ih
          { acc with
            idx := acc.idx + 1,
            screenshots := acc.screenshots ++
              [{ vmId := vmId, imageB64 := resizeScreenshot raw (env.resize acc.idx),
                 timestamp := now, reasoning := some r, lastAction := some la }],
            lastImage := some (resizeScreenshot raw (env.resize acc.idx)) }
      | error e =>
        cases hio2 : env'.io acc.idx with
        | ok raw' =>
          simp only [runSteps, hio1, hio2]
          refine (List.prefix_append acc.screenshots
            [{ vmId := vmId, imageB64 := resizeScreenshot raw' (env'.resize acc.idx),
               timestamp := now, reasoning := some r, lastAction := some la }]).trans ?_
          simpa using
            runSteps_shots_extend vmId env' now rest
              { acc with
                idx := acc.idx + 1,
                screenshots := acc.screenshots ++
                  [{ vmId := vmId, imageB64 := resizeScreenshot raw' (env'.resize acc.idx),
                     timestamp := now, reasoning := some r, lastAction := some la }],
                lastImage := some (resizeScreenshot raw' (env'.resize acc.idx)) }
        | error e' => simp [runSteps, hio1, hio2]

/-- C6: for a session `executeTask` accepts (present, not stopped/error),
the call always returns a `TaskResult` (never throws past the guards); if it
reports `success = false` then it carries an error and the session status
was set to `error`; and against ANY more-successful oracle `env'` (same
payloads wherever `env` succeeded, same resizes) its captured frames are a
prefix of the `env'` run's frames — so every frame captured before the
failure is preserved, never discarded. -/
theorem c6_failures_return_partial_results (m : VMManager) (vmId task : String)
    (env env' : TaskEnv) (now duration : Nat) (entry : VMEntry)
    (hentry : m.getEntry vmId = some entry)
    (hstatus : ¬ (entry.meta.status = .stopped ∨ entry.meta.status = .error))
    (hio : ∀ i r, env.io i = .ok r → env'.io i = .ok r)
    (hres : ∀ i, env.resize i = env'.resize i) :
    ∃ r, (m.executeTask vmId task env now duration).1 = .ok r ∧
      (r.success = false →
        r.error.isSome = true ∧
        ((m.executeTask vmId task env now duration).2.get vmId).map VM.status
          = some .error) ∧
      ∃ r', (m.executeTask vmId task env' now duration).1 = .ok r' ∧
        r.screenshots <+: r'.screenshots := by
  have hget : ∀ (f g : VM → VM),
      (((m.updateMeta vmId f).updateMeta vmId g).get vmId).map VM.status
        = some (g (f entry.meta)).status := by
    intro f g
    simp [VMManager.get, getEntry_updateMeta_self, hentry]
  have hmono := runSteps_shots_mono vmId env env' now hio hres
    (taskSteps task entry.meta.osType) ⟨0, [], [], Option.none⟩
  simp only [VMManager.executeTask, hentry]
  rw [if_neg hstatus, if_neg hstatus]
  by_cases hi : ifaceUp entry.computer
  · rw [if_neg (show ¬ ¬ ifaceUp entry.computer = true by simp [hi]),
        if_neg (show ¬ ¬ ifaceUp entry.computer = true by simp [hi])]
    cases hrun : runSteps vmId env now (taskSteps task entry.meta.osType) ⟨0, [], [], Option.none⟩ with
    | ok acc =>
      refine ⟨_, rfl, by simp, ?_⟩
      cases hrun' : runSteps vmId env' now (taskSteps task entry.meta.osType) ⟨0, [], [], Option.none⟩ with
      | ok acc' =>
        refine ⟨_, rfl, ?_⟩
        rw [hrun, hrun'] at hmono
        simpa using hmono
      | error p =>
        refine ⟨_, rfl, ?_⟩
        rw [hrun, hrun'] at hmono
        cases p with
        | mk e acc' => simpa using hmono
    | error p =>
      cases p with
      | mk e acc =>
        refine ⟨_, rfl, fun _ => ⟨rfl, hget _ _⟩, ?_⟩
        cases hrun' : runSteps vmId env' now (taskSteps task entry.meta.osType) ⟨0, [], [], Option.none⟩ with
        | ok acc' =>
          refine ⟨_, rfl, ?_⟩
          rw [hrun, hrun'] at hmono
          simpa using hmono
        | error p' =>
          refine ⟨_, rfl, ?_⟩
          rw [hrun, hrun'] at hmono
          cases p' with
          | mk e' acc'' => simpa using hmono
  · rw [if_pos hi, if_pos hi]
    exact ⟨_, rfl, fun _ => ⟨rfl, hget _ _⟩, _, rfl, List.prefix_refl _⟩

/-- C6 witness: on the ready Linux session, "go to example.com" with the
interface failing from call index 2 onward returns a failed `TaskResult`
whose frames are a prefix of the frames of the fully successful run, with
an error recorded and the session marked `error`. -/
theorem c6_witness :
    ∃ r, (c3Mgr.executeTask "v1" "go to example.com" taskEnvFailAt2 5 100).1 = .ok r ∧
      (r.success = false →
        r.error.isSome = true ∧
        ((c3Mgr.executeTask "v1" "go to example.com" taskEnvFailAt2 5 100).2.get "v1").map
            VM.status = some .error) ∧
      ∃ r', (c3Mgr.executeTask "v1" "go to example.com" taskEnvOk 5 100).1 = .ok r' ∧
        r.screenshots <+: r'.screenshots :=
  c6_failures_return_partial_results c3Mgr "v1" "go to example.com" taskEnvFailAt2 taskEnvOk
    5 100 (readyEntry (sampleVM "v1" .linux .ready) (some "cn")) (by decide) (by decide)
    (fun i r h => by
      by_cases hi2 : i < 2
      · simpa [taskEnvFailAt2, taskEnvOk, hi2] using h
      · simp [taskEnvFailAt2, hi2] at h)
    (fun _ => rfl)

end StrawberryTerminal
